import Mathlib

/-!
# Spirit (spacebin): the `POST /` create handler and the start-up sequence

A shallow embedding of

* `src/document/create.go`  (`registerCreate`, the handler mounted on `POST /`), and
* `src/cmd/spacebin/main.go` (`main`, up to the call of `ListenAndServe`),

followed by the properties of the specification that concern them.

Go strings are byte sequences, so they are modelled as lists of bytes.  The
collaborators of the handler that live outside the two files (`BodyParser`,
`Validate`, `NewDocument`, `GetDocument`) are parameters of the model; the
state behind the document store is passed explicitly.
-/

namespace Spirit

/-! ## Go strings -/

/-- A Go `byte`. -/
abbrev Byte := Fin 256

/-- A Go `string`: an immutable sequence of bytes. -/
abbrev GoString := List Byte

/-- UTF-8 encoding of one code point, as the Go compiler stores string literals. -/
def utf8 (c : Char) : List Byte :=
  let n := c.toNat
  if n < 0x80 then [Fin.ofNat n]
  else if n < 0x800 then [Fin.ofNat (0xC0 + n / 64), Fin.ofNat (0x80 + n % 64)]
  else if n < 0x10000 then
    [Fin.ofNat (0xE0 + n / 4096), Fin.ofNat (0x80 + n / 64 % 64), Fin.ofNat (0x80 + n % 64)]
  else
    [Fin.ofNat (0xF0 + n / 262144), Fin.ofNat (0x80 + n / 4096 % 64),
     Fin.ofNat (0x80 + n / 64 % 64), Fin.ofNat (0x80 + n % 64)]

/-- The Go string denoted by a string literal. -/
def str (s : String) : GoString := s.data.flatMap utf8

/-! ## `encoding/base64`, `StdEncoding.EncodeToString`

The handler imports `encoding/base64` as `b64` (create.go:20) and calls
`b64.StdEncoding.EncodeToString` (create.go:79).  The definitions below follow
the standard library's `Encoding.Encode`: three source bytes are packed into a
24-bit value, four 6-bit indices into the alphabet are read off it, and a tail
of one or two bytes is padded with `=`. -/

/-- The alphabet of `base64.StdEncoding` (RFC 4648, section 4). -/
def encodeStd : GoString :=
  str "ABCDEFGHIJKLMNOPQRSTUVWXYZabcdefghijklmnopqrstuvwxyz0123456789+/"

/-- The padding character of `base64.StdEncoding`, `'='`. -/
def padChar : Byte := 61

/-- The table lookup `enc.encode[i]`. -/
def encSym (i : Nat) : Byte := encodeStd.getD i 0

/-- The function `b64.StdEncoding.EncodeToString` on the bytes of its argument. -/
def EncodeToString : GoString → GoString
  | b0 :: b1 :: b2 :: rest =>
    let val := b0.val <<< 16 ||| b1.val <<< 8 ||| b2.val
    encSym (val >>> 18 &&& 0x3F) :: encSym (val >>> 12 &&& 0x3F) ::
      encSym (val >>> 6 &&& 0x3F) :: encSym (val &&& 0x3F) :: EncodeToString rest
  | [b0, b1] =>
    let val := b0.val <<< 16 ||| b1.val <<< 8
    [encSym (val >>> 18 &&& 0x3F), encSym (val >>> 12 &&& 0x3F),
     encSym (val >>> 6 &&& 0x3F), padChar]
  | [b0] =>
    let val := b0.val <<< 16
    [encSym (val >>> 18 &&& 0x3F), encSym (val >>> 12 &&& 0x3F), padChar, padChar]
  | [] => []

/-- Position of a byte in the alphabet (64 when it is not a symbol of it). -/
def decSym (c : Byte) : Nat := encodeStd.indexOf c

/-- A decoder for the output of `EncodeToString`: four symbols give back three
bytes, and a final group ending in one or two `=` gives back two or one.  It is
only ever applied to encoder output here, so malformed input is not rejected. -/
def decodeStd : GoString → GoString
  | c0 :: c1 :: c2 :: c3 :: rest =>
    let b0 : Byte := Fin.ofNat (decSym c0 * 4 + decSym c1 / 16)
    let b1 : Byte := Fin.ofNat (decSym c1 % 16 * 16 + decSym c2 / 4)
    let b2 : Byte := Fin.ofNat (decSym c2 % 4 * 64 + decSym c3)
    if c2 = padChar then [b0]
    else if c3 = padChar then [b0, b1]
    else b0 :: b1 :: b2 :: decodeStd rest
  | _ => []

/-! ## Data of package `document`

The handler builds and reads values of four types whose declarations are
outside `create.go`; their fields are the ones the handler names. -/

/-- Modelled from the spec: the declaration of `CreateRequest` is not in
`create.go`.  Section 6 gives the body of `POST /` as
`{content: string, extension?: string}`; the handler reads `b.Content` and
`b.Extension` (create.go:51). -/
structure CreateRequest where
  Content : GoString
  Extension : GoString
deriving DecidableEq

/-- Modelled from the spec: the declaration of `Document` is not in `create.go`.
Section 3 lists `ID`, `Content`, `Extension` and `ContentHash`; the handler
reads `document.ID` and `document.Content` (create.go:78-79). -/
structure Document where
  ID : GoString
  Content : GoString
  Extension : GoString
  ContentHash : GoString
deriving DecidableEq

/-- Modelled from the spec: the declaration of `Payload` is not in `create.go`.
Section 6 gives the success payload as `{id: string, contentHash: string}`; the
handler fills `ID` with a pointer (`&document.ID`) and `ContentHash` with a
string, and `Payload{}` is the zero value: a nil `ID` and an empty
`ContentHash`. -/
structure Payload where
  ID : Option GoString := none
  ContentHash : GoString := []
deriving DecidableEq

/-- Modelled from the spec: the declaration of `Response` is not in `create.go`.
The handler fills the fields `Status`, `Payload` and `Error` (create.go:31-35);
an answer in section 6 has a status and either a payload or an error message. -/
structure Response where
  Status : Nat
  Payload : Payload
  Error : GoString
deriving DecidableEq

/-! ## The fiber context and the collaborators of the handler -/

/-- What the handler does to the outside, in program order. -/
inductive Event where
  | bodyParser
  | validate (b : CreateRequest)
  | newDocument (content extension : GoString)
  | getDocument (id : GoString)
  | status (code : Nat)
  | json (r : Response)
deriving DecidableEq

/-- Everything the handler can read or change: the request held by the fiber
context `c`, the status code and body of `c.Response()`, the state behind the
document store, and the log of the calls made so far (oldest first). -/
structure World (ρ σ : Type) where
  request : ρ
  statusCode : Nat
  body : Option Response
  store : σ
  log : List Event
deriving DecidableEq

/-- The context fiber hands to a handler: status 200, nothing written yet. -/
def World.init {ρ σ : Type} (req : ρ) (st : σ) : World ρ σ :=
  { request := req, statusCode := 200, body := none, store := st, log := [] }

/-- Record one call in the log. -/
def World.call {ρ σ : Type} (w : World ρ σ) (e : Event) : World ρ σ :=
  { w with log := w.log ++ [e] }

/-- The call `c.Status(code)`: sets the status code of the response. -/
def World.Status {ρ σ : Type} (w : World ρ σ) (code : Nat) : World ρ σ :=
  { w.call (Event.status code) with statusCode := code }

/-- The call `c.Response().StatusCode()`. -/
def World.StatusCode {ρ σ : Type} (w : World ρ σ) : Nat := w.statusCode

/-- The call `c.JSON(r)`: writes `r` as the body of the response. -/
def World.JSON {ρ σ : Type} (w : World ρ σ) (r : Response) : World ρ σ :=
  { w.call (Event.json r) with body := some r }

/-- The functions the handler calls that are defined outside `create.go`.
An `error` is represented by the string its `Error()` method returns, a nil
`error` by `none` or by `Except.ok`.  `NewDocument` and `GetDocument` work on the
store, whose state they take and return. -/
structure Collaborators (ρ σ : Type) where
  BodyParser : ρ → Except GoString CreateRequest
  Validate : CreateRequest → Option GoString
  NewDocument : GoString → GoString → σ → Except GoString GoString × σ
  GetDocument : GoString → σ → Except GoString Document × σ

/-! ## `registerCreate` (create.go:25-86) -/

/-- The closure that `registerCreate` mounts on `POST /`, run on the context `c`.
The first component is the `error` the closure returns.  In `c.Status(n).JSON(&Response{Status: c.Response().StatusCode(), ...})`
Go evaluates the receiver `c.Status(n)` before the argument, so the `Status`
field is read from the context after the status has been set. -/
def registerCreate {ρ σ : Type} (env : Collaborators ρ σ) (c : World ρ σ) :
    Option GoString × World ρ σ :=
  let c := c.call Event.bodyParser
  match env.BodyParser c.request with
  | Except.error err =>
    let c := c.Status 400
    (none, c.JSON { Status := c.StatusCode, Payload := {}, Error := err })
  | Except.ok b =>
    let c := c.call (Event.validate b)
    match env.Validate b with
    | some err =>
      let c := c.Status 400
      (none, c.JSON { Status := c.StatusCode, Payload := {}, Error := err })
    | none =>
      let c := c.call (Event.newDocument b.Content b.Extension)
      match env.NewDocument b.Content b.Extension c.store with
      | (Except.error err, st) =>
        let c := { c with store := st }.Status 500
        (none, c.JSON { Status := c.StatusCode, Payload := {}, Error := err })
      | (Except.ok id, st) =>
        let c := { c with store := st }.call (Event.getDocument id)
        match env.GetDocument id c.store with
        | (Except.error err, st) =>
          let c := { c with store := st }.Status 500
          (none, c.JSON { Status := c.StatusCode, Payload := {}, Error := err })
        | (Except.ok document, st) =>
          let c := { c with store := st }.Status 201
          (none, c.JSON
            { Status := c.StatusCode,
              Payload :=
                { ID := some document.ID,
                  ContentHash := EncodeToString document.Content },
              Error := [] })

/-- One request served on a fresh context. -/
def serve {ρ σ : Type} (env : Collaborators ρ σ) (req : ρ) (st : σ) :
    Option GoString × World ρ σ :=
  registerCreate env (World.init req st)

/-! ## `main` (main.go:49-147), up to the call of `ListenAndServe`

The start-up sequence is sequential until the server is started.  The goroutine
that waits for an operating-system signal (main.go:96-129) and what follows the
return of `ListenAndServe` are not part of the model. -/

/-- Modelled from the spec: the declaration of `config.Config` is not in
`main.go`.  Section 6 names backend selection as configuration; `main` reads
`DbDriver`, `Headless`, `Host` and `Port`. -/
structure Config where
  DbDriver : GoString
  Headless : Bool
  Host : GoString
  Port : Int
deriving DecidableEq

/-- The constructors and the migration `main` calls, with what they return.
`NewPostgres` returns `(pg, err)` and `pg` is used only when `err` is nil;
`NewEphemeralDb` returns `(db, err)` and `main` keeps `db` whatever `err` is, so
both components are kept here (`none` in the first is a nil database). -/
structure Startup (δ : Type) where
  Config : Config
  NewPostgres : Except GoString δ
  Migrate : δ → Option GoString
  NewEphemeralDb : Option δ × Option GoString

/-- The steps of `main`, in program order. -/
inductive Step (δ : Type) where
  | newPostgres
  | migrate (pg : δ)
  | newEphemeralDb
  | print (msg : GoString)
  | fatal (msg err : GoString)
  | newServer (db : Option δ)
  | mountMiddleware
  | registerHeaders
  | mountStatic
  | mountHandlers
  | info (msg : GoString)
  | listenAndServe (host : GoString) (port : Int)
deriving DecidableEq

/-- Lines 74-137 of `main`: build the server around `db`, mount everything and
start listening. -/
def startServer {δ : Type} (cfg : Config) (db : Option δ) : List (Step δ) :=
  [Step.newServer db, Step.mountMiddleware, Step.registerHeaders] ++
    (if !cfg.Headless then [Step.mountStatic] else []) ++
    [Step.mountHandlers, Step.info (str "Starting HTTP listener"),
     Step.listenAndServe cfg.Host cfg.Port]

/-- The steps `main` takes.  `log.Fatal()...Msg` exits the process, so a
trace ends at a `fatal` step; `var db database.Database` starts as nil and
the `switch` on `DbDriver` has the two cases `"postgres"` and `"ephemeral"` and
no `default`. -/
def main {δ : Type} (s : Startup δ) : List (Step δ) :=
  if s.Config.DbDriver = str "postgres" then
    match s.NewPostgres with
    | Except.error err =>
      [Step.newPostgres, Step.fatal (str "Could not connect to database") err]
    | Except.ok pg =>
      match s.Migrate pg with
      | some err =>
        [Step.newPostgres, Step.migrate pg,
         Step.fatal (str "Failed migrations; Could not create DOCUMENTS tables.") err]
      | none =>
        [Step.newPostgres, Step.migrate pg, Step.print (str "connected to postgresDb")] ++
          startServer s.Config (some pg)
  else if s.Config.DbDriver = str "ephemeral" then
    [Step.newEphemeralDb, Step.print (str "connected to ephemeralDb")] ++
      startServer s.Config s.NewEphemeralDb.1
  else
    startServer s.Config none

/-! ## SHA-256 (FIPS 180-4)

The specification names SHA-256 as the content digest.  It is defined here from
the standard, over 32-bit words held as natural numbers, to be compared with
what the handler computes. -/

/-- The round constants of SHA-256. -/
def sha256K : List Nat := [
  0x428a2f98, 0x71374491, 0xb5c0fbcf, 0xe9b5dba5, 0x3956c25b, 0x59f111f1, 0x923f82a4, 0xab1c5ed5,
  0xd807aa98, 0x12835b01, 0x243185be, 0x550c7dc3, 0x72be5d74, 0x80deb1fe, 0x9bdc06a7, 0xc19bf174,
  0xe49b69c1, 0xefbe4786, 0x0fc19dc6, 0x240ca1cc, 0x2de92c6f, 0x4a7484aa, 0x5cb0a9dc, 0x76f988da,
  0x983e5152, 0xa831c66d, 0xb00327c8, 0xbf597fc7, 0xc6e00bf3, 0xd5a79147, 0x06ca6351, 0x14292967,
  0x27b70a85, 0x2e1b2138, 0x4d2c6dfc, 0x53380d13, 0x650a7354, 0x766a0abb, 0x81c2c92e, 0x92722c85,
  0xa2bfe8a1, 0xa81a664b, 0xc24b8b70, 0xc76c51a3, 0xd192e819, 0xd6990624, 0xf40e3585, 0x106aa070,
  0x19a4c116, 0x1e376c08, 0x2748774c, 0x34b0bcb5, 0x391c0cb3, 0x4ed8aa4a, 0x5b9cca4f, 0x682e6ff3,
  0x748f82ee, 0x78a5636f, 0x84c87814, 0x8cc70208, 0x90befffa, 0xa4506ceb, 0xbef9a3f7, 0xc67178f2]

/-- The initial hash value of SHA-256. -/
def sha256H0 : List Nat :=
  [0x6a09e667, 0xbb67ae85, 0x3c6ef372, 0xa54ff53a,
   0x510e527f, 0x9b05688c, 0x1f83d9ab, 0x5be0cd19]

/-- Reduction to a 32-bit word. -/
def w32 (x : Nat) : Nat := x % 4294967296

/-- Rotation of a 32-bit word to the right. -/
def rotr (x n : Nat) : Nat := (x >>> n) ||| w32 (x <<< (32 - n))

/-- The function sigma-0 of the message schedule. -/
def ssig0 (x : Nat) : Nat := rotr x 7 ^^^ rotr x 18 ^^^ (x >>> 3)

/-- The function sigma-1 of the message schedule. -/
def ssig1 (x : Nat) : Nat := rotr x 17 ^^^ rotr x 19 ^^^ (x >>> 10)

/-- The function Sigma-0 of the compression rounds. -/
def bsig0 (x : Nat) : Nat := rotr x 2 ^^^ rotr x 13 ^^^ rotr x 22

/-- The function Sigma-1 of the compression rounds. -/
def bsig1 (x : Nat) : Nat := rotr x 6 ^^^ rotr x 11 ^^^ rotr x 25

/-- The choice function on 32-bit words. -/
def ch (x y z : Nat) : Nat := (x &&& y) ^^^ ((4294967295 - x) &&& z)

/-- The majority function. -/
def maj (x y z : Nat) : Nat := (x &&& y) ^^^ (x &&& z) ^^^ (y &&& z)

/-- Extend the message schedule by `n` words; the list holds the most recent
word first. -/
def schedule : Nat → List Nat → List Nat
  | 0, w => w
  | n + 1, w =>
    schedule n
      (w32 (ssig1 (w.getD 1 0) + w.getD 6 0 + ssig0 (w.getD 14 0) + w.getD 15 0) :: w)

/-- One compression round on the eight working variables. -/
def round (s : List Nat) (kw : Nat × Nat) : List Nat :=
  match s with
  | [a, b, c, d, e, f, g, h] =>
    let t1 := h + bsig1 e + ch e f g + kw.1 + kw.2
    let t2 := bsig0 a + maj a b c
    [w32 (t1 + t2), a, b, c, w32 (d + t1), e, f, g]
  | _ => s

/-- The compression function on one block of sixteen words. -/
def compress (h : List Nat) (block : List Nat) : List Nat :=
  List.zipWith (fun x y => w32 (x + y)) h
    ((sha256K.zip (schedule 48 block.reverse).reverse).foldl round h)

/-- Big-endian 32-bit words of a byte sequence. -/
def words : List Nat → List Nat
  | a :: b :: c :: d :: rest => (a * 16777216 + b * 65536 + c * 256 + d) :: words rest
  | _ => []

/-- Padding: a one bit, zeros up to 56 modulo 64 bytes, the bit length on 8 bytes. -/
def pad (msg : List Nat) : List Nat :=
  let bits := msg.length * 8
  msg ++ [0x80] ++ List.replicate ((55 + 64 - msg.length % 64) % 64) 0 ++
    [bits / 2 ^ 56 % 256, bits / 2 ^ 48 % 256, bits / 2 ^ 40 % 256, bits / 2 ^ 32 % 256,
     bits / 2 ^ 24 % 256, bits / 2 ^ 16 % 256, bits / 2 ^ 8 % 256, bits % 256]

/-- The first `n` blocks of sixteen words. -/
def blocks : Nat → List Nat → List (List Nat)
  | 0, _ => []
  | n + 1, ws => ws.take 16 :: blocks n (ws.drop 16)

/-- The SHA-256 digest of a byte sequence: 32 bytes. -/
def sha256 (msg : GoString) : GoString :=
  let ws := words (pad (msg.map Fin.val))
  ((blocks (ws.length / 16) ws).foldl compress sha256H0).flatMap fun x =>
    [Fin.ofNat (x / 16777216), Fin.ofNat (x / 65536), Fin.ofNat (x / 256), Fin.ofNat x]

/-- Lower-case hexadecimal rendering of a byte sequence. -/
def hexString (bs : GoString) : GoString :=
  bs.flatMap fun b =>
    [(str "0123456789abcdef").getD (b.val / 16) 0, (str "0123456789abcdef").getD (b.val % 16) 0]

/-! ## Vocabulary of the properties -/

/-- A `c.JSON` call in the log. -/
def Event.isJSON : Event → Bool
  | Event.json _ => true
  | _ => false

/-- The five ways a request can go through `registerCreate`, by what the
collaborators return. -/
inductive Path {ρ σ : Type} (env : Collaborators ρ σ) (req : ρ) (st : σ) : Prop where
  | parseError (err : GoString) (hp : env.BodyParser req = Except.error err)
  | invalid (b : CreateRequest) (err : GoString)
      (hp : env.BodyParser req = Except.ok b) (hv : env.Validate b = some err)
  | newError (b : CreateRequest) (err : GoString) (st1 : σ)
      (hp : env.BodyParser req = Except.ok b) (hv : env.Validate b = none)
      (hn : env.NewDocument b.Content b.Extension st = (Except.error err, st1))
  | getError (b : CreateRequest) (id err : GoString) (st1 st2 : σ)
      (hp : env.BodyParser req = Except.ok b) (hv : env.Validate b = none)
      (hn : env.NewDocument b.Content b.Extension st = (Except.ok id, st1))
      (hg : env.GetDocument id st1 = (Except.error err, st2))
  | created (b : CreateRequest) (id : GoString) (doc : Document) (st1 st2 : σ)
      (hp : env.BodyParser req = Except.ok b) (hv : env.Validate b = none)
      (hn : env.NewDocument b.Content b.Extension st = (Except.ok id, st1))
      (hg : env.GetDocument id st1 = (Except.ok doc, st2))

/-- Body parsing, `Validate`, `NewDocument` and `GetDocument` all succeed on a
request, the last one returning `doc`. -/
def Created {ρ σ : Type} (env : Collaborators ρ σ) (req : ρ) (st : σ) (doc : Document) :
    Prop :=
  ∃ b id st1 st2, env.BodyParser req = Except.ok b ∧ env.Validate b = none ∧
    env.NewDocument b.Content b.Extension st = (Except.ok id, st1) ∧
    env.GetDocument id st1 = (Except.ok doc, st2)

/-- The trace of `main` reaches `srv.ListenAndServe()`. -/
def Serves {δ : Type} (s : Startup δ) : Prop :=
  Step.listenAndServe s.Config.Host s.Config.Port ∈ main s

instance {δ : Type} [DecidableEq δ] (s : Startup δ) : Decidable (Serves s) := by
  unfold Serves
  infer_instance

/-- The backend the configuration selects was constructed without error and,
for the durable backend, migrated without error. -/
def backendReady {δ : Type} (s : Startup δ) : Bool :=
  if s.Config.DbDriver = str "postgres" then
    match s.NewPostgres with
    | Except.ok pg => (s.Migrate pg).isNone
    | Except.error _ => false
  else if s.Config.DbDriver = str "ephemeral" then
    s.NewEphemeralDb.2.isNone
  else
    false

/-! ## Example deployments

Concrete collaborators on which the properties are evaluated: an in-memory
store, a row store with another identifier scheme, and stores that fail or lose
data. -/

/-- A request body is either unparsable or a parsed request. -/
abbrev Body := Option CreateRequest

/-- The in-memory store: fails on an unparsable body, rejects empty content,
appends the new document and looks documents up by identifier. -/
def memEnv : Collaborators Body (List Document) where
  BodyParser req :=
    match req with
    | none => Except.error (str "Unprocessable Entity")
    | some b => Except.ok b
  Validate b := if b.Content = [] then some (str "content: cannot be blank.") else none
  NewDocument content extension st :=
    let id := str "abc123" ++ List.replicate st.length 120
    (Except.ok id,
      st ++ [{ ID := id, Content := content, Extension := extension,
               ContentHash := EncodeToString content }])
  GetDocument id st :=
    match st.find? (fun d => d.ID = id) with
    | some d => (Except.ok d, st)
    | none => (Except.error (str "document not found"), st)

/-- A row store: rows of identifier, content and extension, newest first, with
numbered identifiers. -/
def rowEnv : Collaborators Body (List (GoString × GoString × GoString)) where
  BodyParser := memEnv.BodyParser
  Validate := memEnv.Validate
  NewDocument content extension st :=
    let id := str "row" ++ List.replicate (st.length + 1) 49
    (Except.ok id, (id, content, extension) :: st)
  GetDocument id st :=
    match st.find? (fun r => r.1 = id) with
    | some r =>
      (Except.ok { ID := r.1, Content := r.2.1, Extension := r.2.2, ContentHash := [] }, st)
    | none => (Except.error (str "sql: no rows in result set"), st)

/-- A store that cannot be written to. -/
def downEnv : Collaborators Body (List Document) :=
  { memEnv with
    NewDocument := fun _ _ st => (Except.error (str "connection refused"), st) }

/-- A store that accepts the write and then cannot be read. -/
def lostEnv : Collaborators Body (List Document) :=
  { memEnv with
    GetDocument := fun _ st => (Except.error (str "connection reset by peer"), st) }

/-- A store that keeps only the first five bytes of the content. -/
def clipEnv : Collaborators Body (List Document) :=
  { memEnv with
    NewDocument := fun content extension st =>
      memEnv.NewDocument (content.take 5) extension st }

/-- The request of the concrete scenario of section 8. -/
def helloReq : Body := some { Content := str "hello world", Extension := str "txt" }

/-- A request with empty content. -/
def blankReq : Body := some { Content := [], Extension := str "txt" }

/-- Configuration used by the start-up examples, for a given driver name. -/
def exampleConfig (driver : String) : Config :=
  { DbDriver := str driver, Headless := true, Host := str "0.0.0.0", Port := 9000 }

/-- A reachable, migrated durable backend. -/
def postgresUp : Startup Nat :=
  { Config := exampleConfig "postgres", NewPostgres := Except.ok 1,
    Migrate := fun _ => none, NewEphemeralDb := (some 2, none) }

/-- A durable backend that cannot be reached. -/
def postgresDown : Startup Nat :=
  { postgresUp with NewPostgres := Except.error (str "connection refused") }

/-- A durable backend whose migration fails. -/
def postgresUnmigrated : Startup Nat :=
  { postgresUp with Migrate := fun _ => some (str "permission denied for schema public") }

/-- An in-memory backend whose constructor reports an error. -/
def ephemeralFailing : Startup Nat :=
  { Config := exampleConfig "ephemeral", NewPostgres := Except.ok 1,
    Migrate := fun _ => none, NewEphemeralDb := (none, some (str "cannot allocate store")) }

/-- A driver name that is neither `postgres` nor `ephemeral`. -/
def sqliteConfigured : Startup Nat :=
  { postgresUp with Config := exampleConfig "sqlite" }

/-! ## `EncodeToString` can be decoded -/

theorem decSym_encSym : ∀ i, i < 64 → decSym (encSym i) = i := by decide

theorem encSym_ne_padChar : ∀ i, i < 64 → encSym i ≠ padChar := by decide

theorem pack3 (b0 b1 b2 : Nat) (h1 : b1 < 256) (h2 : b2 < 256) :
    b0 <<< 16 ||| b1 <<< 8 ||| b2 = b0 * 65536 + b1 * 256 + b2 := by
  have e1 : b1 <<< 8 ||| b2 = b1 * 256 + b2 := by
    rw [Nat.shiftLeft_eq, Nat.mul_comm]
    exact (Nat.mul_add_lt_is_or (i := 8) (b := b2) (by simpa using h2) b1).symm
  have e2 : b0 <<< 16 ||| (b1 * 256 + b2) = b0 * 65536 + (b1 * 256 + b2) := by
    rw [Nat.shiftLeft_eq, Nat.mul_comm]
    exact (Nat.mul_add_lt_is_or (i := 16) (b := b1 * 256 + b2)
      (by simp only [Nat.reducePow]; omega) b0).symm
  rw [Nat.lor_assoc, e1, e2]; omega

theorem sextet (v k : Nat) : v >>> k &&& 0x3F = v / 2 ^ k % 64 := by
  rw [Nat.shiftRight_eq_div_pow]
  exact Nat.and_pow_two_sub_one_eq_mod _ 6

theorem sextet0 (v : Nat) : v &&& 0x3F = v % 64 :=
  Nat.and_pow_two_sub_one_eq_mod _ 6

theorem ofNat_val (b : Byte) (n : Nat) (h : n = b.val) : (Fin.ofNat n : Byte) = b := by
  subst h
  apply Fin.ext
  simp [Fin.ofNat]

theorem decodeStd_EncodeToString : ∀ s : GoString, decodeStd (EncodeToString s) = s
  | [] => rfl
  | [b0] => by
    have h0 := b0.isLt
    simp only [EncodeToString, decodeStd, sextet, Nat.shiftLeft_eq, if_true]
    rw [decSym_encSym _ (Nat.mod_lt _ (by decide)), decSym_encSym _ (Nat.mod_lt _ (by decide))]
    congr 1
    apply ofNat_val
    simp only [Nat.reducePow]
    omega
  | [b0, b1] => by
    have h0 := b0.isLt
    have h1 := b1.isLt
    have hv : b0.val <<< 16 ||| b1.val <<< 8 = b0.val * 65536 + b1.val * 256 := by
      simpa using pack3 b0.val b1.val 0 h1 (by decide)
    simp only [EncodeToString, decodeStd, sextet, hv, if_true]
    rw [if_neg (encSym_ne_padChar _ (Nat.mod_lt _ (by decide)))]
    rw [decSym_encSym _ (Nat.mod_lt _ (by decide)), decSym_encSym _ (Nat.mod_lt _ (by decide)),
      decSym_encSym _ (Nat.mod_lt _ (by decide))]
    simp only [Nat.reducePow]
    congr 1
    · apply ofNat_val; omega
    · congr 1
      apply ofNat_val; omega
  | b0 :: b1 :: b2 :: rest => by
    have h0 := b0.isLt
    have h1 := b1.isLt
    have h2 := b2.isLt
    have hv := pack3 b0.val b1.val b2.val h1 h2
    simp only [EncodeToString, decodeStd, sextet, sextet0, hv]
    rw [if_neg (encSym_ne_padChar _ (Nat.mod_lt _ (by decide))),
      if_neg (encSym_ne_padChar _ (Nat.mod_lt _ (by decide)))]
    rw [decSym_encSym _ (Nat.mod_lt _ (by decide)), decSym_encSym _ (Nat.mod_lt _ (by decide)),
      decSym_encSym _ (Nat.mod_lt _ (by decide)), decSym_encSym _ (Nat.mod_lt _ (by decide)),
      decodeStd_EncodeToString rest]
    congr 1
    · apply ofNat_val; omega
    · congr 1
      · apply ofNat_val; omega
      · congr 1
        apply ofNat_val; omega

theorem EncodeToString_injective : Function.Injective EncodeToString :=
  Function.LeftInverse.injective decodeStd_EncodeToString

/-! ## The five paths of the handler -/

section Paths
variable {ρ σ : Type}

theorem serve_parse_error (env : Collaborators ρ σ) (req : ρ) (st : σ) (err : GoString)
    (hp : env.BodyParser req = Except.error err) :
    serve env req st =
      (none,
        { request := req, statusCode := 400,
          body := some { Status := 400, Payload := {}, Error := err },
          store := st,
          log := [Event.bodyParser, Event.status 400,
                  Event.json { Status := 400, Payload := {}, Error := err }] }) := by
  simp [serve, registerCreate, World.init, World.call, World.Status, World.JSON,
    World.StatusCode, hp]

theorem serve_invalid (env : Collaborators ρ σ) (req : ρ) (st : σ) (b : CreateRequest)
    (err : GoString) (hp : env.BodyParser req = Except.ok b) (hv : env.Validate b = some err) :
    serve env req st =
      (none,
        { request := req, statusCode := 400,
          body := some { Status := 400, Payload := {}, Error := err },
          store := st,
          log := [Event.bodyParser, Event.validate b, Event.status 400,
                  Event.json { Status := 400, Payload := {}, Error := err }] }) := by
  simp [serve, registerCreate, World.init, World.call, World.Status, World.JSON,
    World.StatusCode, hp, hv]

theorem serve_new_error (env : Collaborators ρ σ) (req : ρ) (st st1 : σ) (b : CreateRequest)
    (err : GoString) (hp : env.BodyParser req = Except.ok b) (hv : env.Validate b = none)
    (hn : env.NewDocument b.Content b.Extension st = (Except.error err, st1)) :
    serve env req st =
      (none,
        { request := req, statusCode := 500,
          body := some { Status := 500, Payload := {}, Error := err },
          store := st1,
          log := [Event.bodyParser, Event.validate b,
                  Event.newDocument b.Content b.Extension, Event.status 500,
                  Event.json { Status := 500, Payload := {}, Error := err }] }) := by
  simp [serve, registerCreate, World.init, World.call, World.Status, World.JSON,
    World.StatusCode, hp, hv, hn]

theorem serve_get_error (env : Collaborators ρ σ) (req : ρ) (st st1 st2 : σ)
    (b : CreateRequest) (id err : GoString)
    (hp : env.BodyParser req = Except.ok b) (hv : env.Validate b = none)
    (hn : env.NewDocument b.Content b.Extension st = (Except.ok id, st1))
    (hg : env.GetDocument id st1 = (Except.error err, st2)) :
    serve env req st =
      (none,
        { request := req, statusCode := 500,
          body := some { Status := 500, Payload := {}, Error := err },
          store := st2,
          log := [Event.bodyParser, Event.validate b,
                  Event.newDocument b.Content b.Extension, Event.getDocument id,
                  Event.status 500,
                  Event.json { Status := 500, Payload := {}, Error := err }] }) := by
  simp [serve, registerCreate, World.init, World.call, World.Status, World.JSON,
    World.StatusCode, hp, hv, hn, hg]

theorem serve_created (env : Collaborators ρ σ) (req : ρ) (st st1 st2 : σ)
    (b : CreateRequest) (id : GoString) (doc : Document)
    (hp : env.BodyParser req = Except.ok b) (hv : env.Validate b = none)
    (hn : env.NewDocument b.Content b.Extension st = (Except.ok id, st1))
    (hg : env.GetDocument id st1 = (Except.ok doc, st2)) :
    serve env req st =
      (none,
        { request := req, statusCode := 201,
          body := some
            { Status := 201,
              Payload := { ID := some doc.ID, ContentHash := EncodeToString doc.Content },
              Error := [] },
          store := st2,
          log := [Event.bodyParser, Event.validate b,
                  Event.newDocument b.Content b.Extension, Event.getDocument id,
                  Event.status 201,
                  Event.json
                    { Status := 201,
                      Payload :=
                        { ID := some doc.ID, ContentHash := EncodeToString doc.Content },
                      Error := [] }] }) := by
  simp [serve, registerCreate, World.init, World.call, World.Status, World.JSON,
    World.StatusCode, hp, hv, hn, hg]

theorem path_total (env : Collaborators ρ σ) (req : ρ) (st : σ) : Path env req st := by
  cases hp : env.BodyParser req with
  | error err => exact Path.parseError err hp
  | ok b =>
    cases hv : env.Validate b with
    | some err => exact Path.invalid b err hp hv
    | none =>
      rcases hn : env.NewDocument b.Content b.Extension st with ⟨r, st1⟩
      cases r with
      | error err => exact Path.newError b err st1 hp hv hn
      | ok id =>
        rcases hg : env.GetDocument id st1 with ⟨r2, st2⟩
        cases r2 with
        | error err => exact Path.getError b id err st1 st2 hp hv hn hg
        | ok doc => exact Path.created b id doc st1 st2 hp hv hn hg

/-- A run answers 201 exactly when all four collaborator calls succeed. -/
theorem status_201_iff (env : Collaborators ρ σ) (req : ρ) (st : σ) :
    (serve env req st).2.statusCode = 201 ↔ ∃ doc, Created env req st doc := by
  constructor
  · intro h
    cases path_total env req st with
    | parseError err hp => rw [serve_parse_error env req st err hp] at h; simp at h
    | invalid b err hp hv => rw [serve_invalid env req st b err hp hv] at h; simp at h
    | newError b err st1 hp hv hn =>
      rw [serve_new_error env req st st1 b err hp hv hn] at h; simp at h
    | getError b id err st1 st2 hp hv hn hg =>
      rw [serve_get_error env req st st1 st2 b id err hp hv hn hg] at h; simp at h
    | created b id doc st1 st2 hp hv hn hg => exact ⟨doc, b, id, st1, st2, hp, hv, hn, hg⟩
  · rintro ⟨doc, b, id, st1, st2, hp, hv, hn, hg⟩
    rw [serve_created env req st st1 st2 b id doc hp hv hn hg]

/-- The body written by a run in which all four collaborator calls succeed. -/
theorem body_of_created (env : Collaborators ρ σ) (req : ρ) (st : σ) (doc : Document)
    (h : Created env req st doc) :
    (serve env req st).2.body =
      some { Status := 201,
             Payload := { ID := some doc.ID, ContentHash := EncodeToString doc.Content },
             Error := [] } := by
  obtain ⟨b, id, st1, st2, hp, hv, hn, hg⟩ := h
  rw [serve_created env req st st1 st2 b id doc hp hv hn hg]

end Paths

/-! ## Responses of the create handler -/

section Create
variable {ρ σ : Type}

/-- C1 (validation gate): when the body parses and `Validate` returns an error,
the handler answers 400 with that error's message and an empty payload, the
log holds no `NewDocument` and no `GetDocument` call, and the store is as it
was. -/
theorem create_validation_gate (env : Collaborators ρ σ) (req : ρ) (st : σ)
    (b : CreateRequest) (err : GoString)
    (hp : env.BodyParser req = Except.ok b) (hv : env.Validate b = some err) :
    (serve env req st).2.statusCode = 400 ∧
    (serve env req st).2.body = some { Status := 400, Payload := {}, Error := err } ∧
    (∀ content extension, Event.newDocument content extension ∉ (serve env req st).2.log) ∧
    (∀ id, Event.getDocument id ∉ (serve env req st).2.log) ∧
    (serve env req st).2.store = st := by
  rw [serve_invalid env req st b err hp hv]
  simp

/-- C1, evaluated: empty content on the in-memory store. -/
theorem create_validation_gate_witness :
    (memEnv.BodyParser blankReq = Except.ok { Content := [], Extension := str "txt" } ∧
      memEnv.Validate { Content := [], Extension := str "txt" } =
        some (str "content: cannot be blank.")) ∧
    ((serve memEnv blankReq []).2.statusCode = 400 ∧
      (serve memEnv blankReq []).2.body =
        some { Status := 400, Payload := {}, Error := str "content: cannot be blank." } ∧
      (∀ content extension,
        Event.newDocument content extension ∉ (serve memEnv blankReq []).2.log) ∧
      (∀ id, Event.getDocument id ∉ (serve memEnv blankReq []).2.log) ∧
      (serve memEnv blankReq []).2.store = []) :=
  ⟨⟨rfl, rfl⟩,
    create_validation_gate memEnv blankReq [] { Content := [], Extension := str "txt" }
      (str "content: cannot be blank.") rfl rfl⟩

/-- C2: the handler answers 201 if and only if body parsing, `Validate`,
`NewDocument` and `GetDocument` all succeed; the body of a 201 answer has
status 201, a payload with an id and a contentHash, and the empty string as
its error. -/
theorem create_201_iff_all_succeed (env : Collaborators ρ σ) (req : ρ) (st : σ) :
    ((serve env req st).2.statusCode = 201 ↔
      ∃ b id st1 doc st2, env.BodyParser req = Except.ok b ∧ env.Validate b = none ∧
        env.NewDocument b.Content b.Extension st = (Except.ok id, st1) ∧
        env.GetDocument id st1 = (Except.ok doc, st2)) ∧
    ((serve env req st).2.statusCode = 201 ↔
      ∃ id contentHash, (serve env req st).2.body =
        some { Status := 201, Payload := { ID := some id, ContentHash := contentHash },
               Error := [] }) := by
  refine ⟨?_, ?_⟩
  · rw [status_201_iff]
    constructor
    · rintro ⟨doc, b, id, st1, st2, h⟩
      exact ⟨b, id, st1, doc, st2, h⟩
    · rintro ⟨b, id, st1, doc, st2, h⟩
      exact ⟨doc, b, id, st1, st2, h⟩
  · constructor
    · intro h
      obtain ⟨doc, hc⟩ := (status_201_iff env req st).1 h
      exact ⟨doc.ID, EncodeToString doc.Content, body_of_created env req st doc hc⟩
    · rintro ⟨id, contentHash, h⟩
      cases path_total env req st with
      | parseError err hp => rw [serve_parse_error env req st err hp] at h; simp at h
      | invalid b err hp hv => rw [serve_invalid env req st b err hp hv] at h; simp at h
      | newError b err st1 hp hv hn =>
        rw [serve_new_error env req st st1 b err hp hv hn] at h; simp at h
      | getError b id err st1 st2 hp hv hn hg =>
        rw [serve_get_error env req st st1 st2 b id err hp hv hn hg] at h; simp at h
      | created b id doc st1 st2 hp hv hn hg =>
        rw [serve_created env req st st1 st2 b id doc hp hv hn hg]

/-- C3: after a successful body parse and `Validate`, an error of `NewDocument`,
or an error of `GetDocument` after `NewDocument` succeeded, gives a 500 answer
whose error message is the message of that error. -/
theorem create_backend_failure (env : Collaborators ρ σ) (req : ρ) (st : σ)
    (b : CreateRequest) (err : GoString)
    (hp : env.BodyParser req = Except.ok b) (hv : env.Validate b = none)
    (hf : (∃ st1, env.NewDocument b.Content b.Extension st = (Except.error err, st1)) ∨
      (∃ id st1 st2, env.NewDocument b.Content b.Extension st = (Except.ok id, st1) ∧
        env.GetDocument id st1 = (Except.error err, st2))) :
    (serve env req st).2.statusCode = 500 ∧
    (serve env req st).2.body = some { Status := 500, Payload := {}, Error := err } := by
  rcases hf with ⟨st1, hn⟩ | ⟨id, st1, st2, hn, hg⟩
  · rw [serve_new_error env req st st1 b err hp hv hn]
    simp
  · rw [serve_get_error env req st st1 st2 b id err hp hv hn hg]
    simp

/-- C3, evaluated: a store that refuses the write, and one that accepts the
write and fails the read. -/
theorem create_backend_failure_witness :
    (downEnv.BodyParser helloReq =
        Except.ok { Content := str "hello world", Extension := str "txt" } ∧
      downEnv.Validate { Content := str "hello world", Extension := str "txt" } = none ∧
      downEnv.NewDocument (str "hello world") (str "txt") [] =
        (Except.error (str "connection refused"), [])) ∧
    ((serve downEnv helloReq []).2.statusCode = 500 ∧
      (serve downEnv helloReq []).2.body =
        some { Status := 500, Payload := {}, Error := str "connection refused" }) ∧
    (lostEnv.NewDocument (str "hello world") (str "txt") []).1 = Except.ok (str "abc123") ∧
    ((serve lostEnv helloReq []).2.statusCode = 500 ∧
      (serve lostEnv helloReq []).2.body =
        some { Status := 500, Payload := {}, Error := str "connection reset by peer" }) :=
  ⟨⟨rfl, rfl, rfl⟩,
    create_backend_failure downEnv helloReq []
      { Content := str "hello world", Extension := str "txt" } (str "connection refused")
      rfl rfl (Or.inl ⟨[], rfl⟩),
    rfl,
    create_backend_failure lostEnv helloReq []
      { Content := str "hello world", Extension := str "txt" }
      (str "connection reset by peer") rfl rfl (Or.inr ⟨str "abc123", _, _, rfl, rfl⟩)⟩

end Create

/-! ## The content hash -/

section Hash
variable {ρ σ : Type}

/-- C4, as stated, fails: for the content `hello world` the in-memory store
answers 201 with contentHash `aGVsbG8gd29ybGQ=`, which is not the SHA-256 digest
of `hello world`, be it as 32 raw bytes, in hexadecimal or in base64. -/
theorem contentHash_hello_world_not_sha256 :
    (serve memEnv helloReq []).2.body =
      some { Status := 201,
             Payload := { ID := some (str "abc123"), ContentHash := str "aGVsbG8gd29ybGQ=" },
             Error := [] } ∧
    hexString (sha256 (str "hello world")) =
      str "b94d27b9934d3e08a52e52d7da7dabfac484efe37a5380ee9088f7ace2efcde9" ∧
    str "aGVsbG8gd29ybGQ=" ≠ sha256 (str "hello world") ∧
    str "aGVsbG8gd29ybGQ=" ≠ hexString (sha256 (str "hello world")) ∧
    str "aGVsbG8gd29ybGQ=" ≠ EncodeToString (sha256 (str "hello world")) := by
  set_option maxRecDepth 100000 in decide

/-- C4, amended: in every 201 answer the contentHash is the padded standard
base64 encoding of the content of the document `GetDocument` returned; for
the content `hello world` it is `aGVsbG8gd29ybGQ=`. -/
theorem contentHash_is_base64 (env : Collaborators ρ σ) (req : ρ) (st : σ) (r : Response)
    (hb : (serve env req st).2.body = some r) (hs : r.Status = 201) :
    (∃ doc, Created env req st doc ∧
      r.Payload.ContentHash = EncodeToString doc.Content) ∧
    EncodeToString (str "hello world") = str "aGVsbG8gd29ybGQ=" := by
  refine ⟨?_, by decide⟩
  cases path_total env req st with
  | parseError err hp =>
    rw [serve_parse_error env req st err hp] at hb
    simp at hb; subst hb; simp at hs
  | invalid b err hp hv =>
    rw [serve_invalid env req st b err hp hv] at hb
    simp at hb; subst hb; simp at hs
  | newError b err st1 hp hv hn =>
    rw [serve_new_error env req st st1 b err hp hv hn] at hb
    simp at hb; subst hb; simp at hs
  | getError b id err st1 st2 hp hv hn hg =>
    rw [serve_get_error env req st st1 st2 b id err hp hv hn hg] at hb
    simp at hb; subst hb; simp at hs
  | created b id doc st1 st2 hp hv hn hg =>
    rw [serve_created env req st st1 st2 b id doc hp hv hn hg] at hb
    simp at hb; subst hb
    exact ⟨doc, ⟨b, id, st1, st2, hp, hv, hn, hg⟩, rfl⟩

/-- C4 amended, evaluated: `hello world` on the row store. -/
theorem contentHash_is_base64_witness :
    ((serve rowEnv helloReq []).2.body =
        some { Status := 201,
               Payload := { ID := some (str "row1"), ContentHash := str "aGVsbG8gd29ybGQ=" },
               Error := [] } ∧
      (201 : Nat) = 201) ∧
    ((∃ doc, Created rowEnv helloReq [] doc ∧
        str "aGVsbG8gd29ybGQ=" = EncodeToString doc.Content) ∧
      EncodeToString (str "hello world") = str "aGVsbG8gd29ybGQ=") :=
  ⟨⟨by decide, rfl⟩,
    contentHash_is_base64 rowEnv helloReq []
      { Status := 201,
        Payload := { ID := some (str "row1"), ContentHash := str "aGVsbG8gd29ybGQ=" },
        Error := [] }
      (by decide) rfl⟩

/-- C5, as stated, fails: there is a function that recovers the content from
the contentHash of every 201 answer, whatever the collaborators are. -/
theorem contentHash_not_one_way :
    ∃ recover : GoString → GoString,
      (∀ content, recover (EncodeToString content) = content) ∧
      ∀ (ρ σ : Type) (env : Collaborators ρ σ) (req : ρ) (st : σ)
        (doc : Document) (r : Response),
        Created env req st doc → (serve env req st).2.body = some r →
          recover r.Payload.ContentHash = doc.Content := by
  refine ⟨decodeStd, decodeStd_EncodeToString, ?_⟩
  intro ρ σ env req st doc r hc hb
  rw [body_of_created env req st doc hc] at hb
  simp at hb; subst hb
  exact decodeStd_EncodeToString doc.Content

/-- C5, amended: the contentHash is an invertible encoding of the content.
Decoding the contentHash of a 201 answer gives back the content of the
document `GetDocument` returned, so two answers with the same contentHash come
from documents with the same content. -/
theorem contentHash_decodes (env : Collaborators ρ σ) (req : ρ) (st : σ) (doc : Document)
    (r : Response) (hc : Created env req st doc)
    (hb : (serve env req st).2.body = some r) :
    decodeStd r.Payload.ContentHash = doc.Content ∧
    ∀ other : GoString, r.Payload.ContentHash = EncodeToString other → other = doc.Content := by
  rw [body_of_created env req st doc hc] at hb
  simp at hb; subst hb
  refine ⟨decodeStd_EncodeToString doc.Content, ?_⟩
  intro other h
  exact (EncodeToString_injective h).symm

/-- C5 amended, evaluated: `hello world` on the in-memory store. -/
theorem contentHash_decodes_witness :
    (Created memEnv helloReq []
        { ID := str "abc123", Content := str "hello world", Extension := str "txt",
          ContentHash := str "aGVsbG8gd29ybGQ=" } ∧
      (serve memEnv helloReq []).2.body =
        some { Status := 201,
               Payload := { ID := some (str "abc123"), ContentHash := str "aGVsbG8gd29ybGQ=" },
               Error := [] }) ∧
    (decodeStd (str "aGVsbG8gd29ybGQ=") = str "hello world" ∧
      ∀ other : GoString,
        str "aGVsbG8gd29ybGQ=" = EncodeToString other → other = str "hello world") :=
  ⟨⟨⟨{ Content := str "hello world", Extension := str "txt" }, str "abc123", _, _,
      rfl, rfl, rfl, rfl⟩, by decide⟩,
    contentHash_decodes memEnv helloReq []
      { ID := str "abc123", Content := str "hello world", Extension := str "txt",
        ContentHash := str "aGVsbG8gd29ybGQ=" }
      { Status := 201,
        Payload := { ID := some (str "abc123"), ContentHash := str "aGVsbG8gd29ybGQ=" },
        Error := [] }
      ⟨{ Content := str "hello world", Extension := str "txt" }, str "abc123", _, _,
        rfl, rfl, rfl, rfl⟩
      (by decide)⟩

end Hash

/-! ## What reaches the caller -/

section Caller
variable {ρ σ : Type}

/-- C6, as stated, fails: on a store that accepts the write and then cannot be
read, `NewDocument` returns the identifier `abc123` and the answer is a 500 with
a nil id, an empty contentHash and the read error as its message, in which
`abc123` does not occur; the document stays in the store. -/
theorem identifier_dropped_when_get_fails :
    lostEnv.NewDocument (str "hello world") (str "txt") [] =
      (Except.ok (str "abc123"),
        [{ ID := str "abc123", Content := str "hello world", Extension := str "txt",
           ContentHash := str "aGVsbG8gd29ybGQ=" }]) ∧
    (serve lostEnv helloReq []).2.body =
      some { Status := 500, Payload := { ID := none, ContentHash := [] },
             Error := str "connection reset by peer" } ∧
    ¬ (str "abc123" <:+: str "connection reset by peer") ∧
    (serve lostEnv helloReq []).2.store =
      [{ ID := str "abc123", Content := str "hello world", Extension := str "txt",
         ContentHash := str "aGVsbG8gd29ybGQ=" }] :=
  ⟨rfl, by decide, by decide, by decide⟩

/-- C6, amended: when `NewDocument` succeeds, the answer is decided by
`GetDocument`.  If it returns a document, the answer is a 201 whose id is the
`ID` of that document; if it returns an error, the answer is a 500 whose error
message is that error's message and whose payload is empty: a nil id and an
empty contentHash. -/
theorem identifier_reported_through_get (env : Collaborators ρ σ) (req : ρ) (st st1 : σ)
    (b : CreateRequest) (id : GoString)
    (hp : env.BodyParser req = Except.ok b) (hv : env.Validate b = none)
    (hn : env.NewDocument b.Content b.Extension st = (Except.ok id, st1)) :
    (serve env req st).2.body =
      match (env.GetDocument id st1).1 with
      | Except.ok doc =>
        some { Status := 201,
               Payload := { ID := some doc.ID, ContentHash := EncodeToString doc.Content },
               Error := [] }
      | Except.error err =>
        some { Status := 500, Payload := { ID := none, ContentHash := [] }, Error := err } := by
  rcases hg : env.GetDocument id st1 with ⟨r, st2⟩
  cases r with
  | error err => rw [serve_get_error env req st st1 st2 b id err hp hv hn hg]
  | ok doc => rw [serve_created env req st st1 st2 b id doc hp hv hn hg]

/-- C6 amended, evaluated: the second document written to the in-memory store. -/
theorem identifier_reported_through_get_witness :
    (memEnv.BodyParser helloReq =
        Except.ok { Content := str "hello world", Extension := str "txt" } ∧
      memEnv.Validate { Content := str "hello world", Extension := str "txt" } = none ∧
      (memEnv.NewDocument (str "hello world") (str "txt")
        [{ ID := str "abc123", Content := str "first", Extension := [],
           ContentHash := [] }]).1 = Except.ok (str "abc123x")) ∧
    (serve memEnv helloReq
        [{ ID := str "abc123", Content := str "first", Extension := [],
           ContentHash := [] }]).2.body =
      some { Status := 201,
             Payload := { ID := some (str "abc123x"), ContentHash := str "aGVsbG8gd29ybGQ=" },
             Error := [] } :=
  ⟨⟨rfl, rfl, rfl⟩,
    identifier_reported_through_get memEnv helloReq
      [{ ID := str "abc123", Content := str "first", Extension := [], ContentHash := [] }]
      _ { Content := str "hello world", Extension := str "txt" } (str "abc123x")
      rfl rfl rfl⟩

/-- C8 (hash determinism): two runs that end in 201, on any collaborators and
any stores, whose retrieved documents have equal content, answer with equal
contentHash values. -/
theorem contentHash_deterministic {ρ1 σ1 ρ2 σ2 : Type}
    (env1 : Collaborators ρ1 σ1) (req1 : ρ1) (st1 : σ1) (doc1 : Document)
    (env2 : Collaborators ρ2 σ2) (req2 : ρ2) (st2 : σ2) (doc2 : Document)
    (h1 : Created env1 req1 st1 doc1) (h2 : Created env2 req2 st2 doc2)
    (hc : doc1.Content = doc2.Content) :
    ∃ r1 r2, (serve env1 req1 st1).2.body = some r1 ∧ (serve env2 req2 st2).2.body = some r2 ∧
      r1.Status = 201 ∧ r2.Status = 201 ∧
      r1.Payload.ContentHash = EncodeToString doc1.Content ∧
      r1.Payload.ContentHash = r2.Payload.ContentHash := by
  refine ⟨_, _, body_of_created env1 req1 st1 doc1 h1, body_of_created env2 req2 st2 doc2 h2,
    rfl, rfl, rfl, ?_⟩
  simp [hc]

/-- C8, evaluated: the same content with another extension, on the in-memory
store and on the row store, under different identifiers. -/
theorem contentHash_deterministic_witness :
    (Created memEnv helloReq []
        { ID := str "abc123", Content := str "hello world", Extension := str "txt",
          ContentHash := str "aGVsbG8gd29ybGQ=" } ∧
      Created rowEnv (some { Content := str "hello world", Extension := str "md" })
        [(str "row1", str "older", str "go")]
        { ID := str "row11", Content := str "hello world", Extension := str "md",
          ContentHash := [] }) ∧
    ∃ r1 r2, (serve memEnv helloReq []).2.body = some r1 ∧
      (serve rowEnv (some { Content := str "hello world", Extension := str "md" })
        [(str "row1", str "older", str "go")]).2.body = some r2 ∧
      r1.Status = 201 ∧ r2.Status = 201 ∧
      r1.Payload.ContentHash = EncodeToString (str "hello world") ∧
      r1.Payload.ContentHash = r2.Payload.ContentHash :=
  ⟨⟨⟨{ Content := str "hello world", Extension := str "txt" }, str "abc123", _, _,
      rfl, rfl, rfl, rfl⟩,
    ⟨{ Content := str "hello world", Extension := str "md" }, str "row11", _, _,
      rfl, rfl, rfl, rfl⟩⟩,
    contentHash_deterministic memEnv helloReq []
      { ID := str "abc123", Content := str "hello world", Extension := str "txt",
        ContentHash := str "aGVsbG8gd29ybGQ=" }
      rowEnv (some { Content := str "hello world", Extension := str "md" })
      [(str "row1", str "older", str "go")]
      { ID := str "row11", Content := str "hello world", Extension := str "md",
        ContentHash := [] }
      ⟨{ Content := str "hello world", Extension := str "txt" }, str "abc123", _, _,
        rfl, rfl, rfl, rfl⟩
      ⟨{ Content := str "hello world", Extension := str "md" }, str "row11", _, _,
        rfl, rfl, rfl, rfl⟩
      rfl⟩

/-- C9: every run returns a nil error and writes exactly one JSON body; the
HTTP status is 400, 500 or 201; the `Status` field of the body equals it, the
status being set in the step just before the body is written; and the payload
of every 400 and 500 answer is empty. -/
theorem create_response_shape (env : Collaborators ρ σ) (req : ρ) (st : σ) :
    (serve env req st).1 = none ∧
    ∃ r, (serve env req st).2.body = some r ∧
      (serve env req st).2.log.filter Event.isJSON = [Event.json r] ∧
      ((serve env req st).2.statusCode = 400 ∨ (serve env req st).2.statusCode = 500 ∨
        (serve env req st).2.statusCode = 201) ∧
      r.Status = (serve env req st).2.statusCode ∧
      (∃ before, (serve env req st).2.log =
        before ++ [Event.status (serve env req st).2.statusCode, Event.json r]) ∧
      ((serve env req st).2.statusCode = 400 ∨ (serve env req st).2.statusCode = 500 →
        r.Payload = {}) := by
  cases path_total env req st with
  | parseError err hp =>
    rw [serve_parse_error env req st err hp]
    exact ⟨rfl, _, rfl, rfl, Or.inl rfl, rfl, ⟨[Event.bodyParser], rfl⟩, fun _ => rfl⟩
  | invalid b err hp hv =>
    rw [serve_invalid env req st b err hp hv]
    exact ⟨rfl, _, rfl, rfl, Or.inl rfl, rfl,
      ⟨[Event.bodyParser, Event.validate b], rfl⟩, fun _ => rfl⟩
  | newError b err st1 hp hv hn =>
    rw [serve_new_error env req st st1 b err hp hv hn]
    exact ⟨rfl, _, rfl, rfl, Or.inr (Or.inl rfl), rfl,
      ⟨[Event.bodyParser, Event.validate b, Event.newDocument b.Content b.Extension], rfl⟩,
      fun _ => rfl⟩
  | getError b id err st1 st2 hp hv hn hg =>
    rw [serve_get_error env req st st1 st2 b id err hp hv hn hg]
    exact ⟨rfl, _, rfl, rfl, Or.inr (Or.inl rfl), rfl,
      ⟨[Event.bodyParser, Event.validate b, Event.newDocument b.Content b.Extension,
        Event.getDocument id], rfl⟩,
      fun _ => rfl⟩
  | created b id doc st1 st2 hp hv hn hg =>
    rw [serve_created env req st st1 st2 b id doc hp hv hn hg]
    refine ⟨rfl, _, rfl, rfl, Or.inr (Or.inr rfl), rfl,
      ⟨[Event.bodyParser, Event.validate b, Event.newDocument b.Content b.Extension,
        Event.getDocument id], rfl⟩, ?_⟩
    intro h
    simp at h

/-- C10: in a 201 answer the id and the contentHash come from the document
`GetDocument` returned.  The id equals the one `NewDocument` returned and the
contentHash equals the encoding of the submitted content exactly when that
document has the requested `ID` and the submitted `Content`. -/
theorem created_payload_from_store (env : Collaborators ρ σ) (req : ρ) (st st1 st2 : σ)
    (b : CreateRequest) (id : GoString) (doc : Document)
    (hp : env.BodyParser req = Except.ok b) (hv : env.Validate b = none)
    (hn : env.NewDocument b.Content b.Extension st = (Except.ok id, st1))
    (hg : env.GetDocument id st1 = (Except.ok doc, st2)) :
    ∃ r, (serve env req st).2.body = some r ∧ r.Status = 201 ∧
      r.Payload.ID = some doc.ID ∧ r.Payload.ContentHash = EncodeToString doc.Content ∧
      ((r.Payload.ID = some id ∧ r.Payload.ContentHash = EncodeToString b.Content) ↔
        (doc.ID = id ∧ doc.Content = b.Content)) := by
  rw [serve_created env req st st1 st2 b id doc hp hv hn hg]
  refine ⟨_, rfl, rfl, rfl, rfl, ?_⟩
  simp only [Option.some.injEq]
  constructor
  · rintro ⟨h1, h2⟩
    exact ⟨h1, EncodeToString_injective h2⟩
  · rintro ⟨h1, h2⟩
    exact ⟨h1, by rw [h2]⟩

/-- C10, evaluated: a store that keeps the first five bytes answers 201 with
the encoding of `hello`, not of the submitted `hello world`. -/
theorem created_payload_from_store_witness :
    (clipEnv.BodyParser helloReq =
        Except.ok { Content := str "hello world", Extension := str "txt" } ∧
      clipEnv.Validate { Content := str "hello world", Extension := str "txt" } = none ∧
      (clipEnv.NewDocument (str "hello world") (str "txt") []).1 =
        Except.ok (str "abc123") ∧
      (clipEnv.GetDocument (str "abc123")
        (clipEnv.NewDocument (str "hello world") (str "txt") []).2).1 =
        Except.ok { ID := str "abc123", Content := str "hello", Extension := str "txt",
                    ContentHash := str "aGVsbG8=" }) ∧
    ∃ r, (serve clipEnv helloReq []).2.body = some r ∧ r.Status = 201 ∧
      r.Payload.ID = some (str "abc123") ∧
      r.Payload.ContentHash = EncodeToString (str "hello") ∧
      ((r.Payload.ID = some (str "abc123") ∧
          r.Payload.ContentHash = EncodeToString (str "hello world")) ↔
        (str "abc123" = str "abc123" ∧ str "hello" = str "hello world")) :=
  ⟨⟨rfl, rfl, rfl, rfl⟩,
    created_payload_from_store clipEnv helloReq [] _ _
      { Content := str "hello world", Extension := str "txt" } (str "abc123")
      { ID := str "abc123", Content := str "hello", Extension := str "txt",
        ContentHash := str "aGVsbG8=" }
      rfl rfl rfl rfl⟩

end Caller

/-! ## Start-up -/

/-- C7: `main` must reach `ListenAndServe` only behind a backend constructed
without error (and migrated, for the durable one), every constructor or
migration failure being fatal before the server binds.  The code does so on
the `postgres` path only: a failing `NewPostgres` and a failing `Migrate` end the
trace in `log.Fatal` with no server built.  With `DbDriver` set to `sqlite` the
`switch` matches no case, no constructor is called, and `main` builds the server
around a nil database and reaches `ListenAndServe`; with `DbDriver` set to
`ephemeral` and a constructor that reports an error, the error is dropped and
`main` likewise serves around the nil database it was given. -/
theorem serves_without_ready_backend :
    (backendReady sqliteConfigured = false ∧ Serves sqliteConfigured ∧
      main sqliteConfigured =
        [Step.newServer none, Step.mountMiddleware, Step.registerHeaders, Step.mountHandlers,
         Step.info (str "Starting HTTP listener"),
         Step.listenAndServe (str "0.0.0.0") 9000]) ∧
    (ephemeralFailing.NewEphemeralDb.2 = some (str "cannot allocate store") ∧
      backendReady ephemeralFailing = false ∧ Serves ephemeralFailing ∧
      main ephemeralFailing =
        [Step.newEphemeralDb, Step.print (str "connected to ephemeralDb"),
         Step.newServer none, Step.mountMiddleware, Step.registerHeaders, Step.mountHandlers,
         Step.info (str "Starting HTTP listener"),
         Step.listenAndServe (str "0.0.0.0") 9000]) ∧
    (backendReady postgresDown = false ∧ ¬ Serves postgresDown ∧
      main postgresDown =
        [Step.newPostgres,
         Step.fatal (str "Could not connect to database") (str "connection refused")]) ∧
    (backendReady postgresUnmigrated = false ∧ ¬ Serves postgresUnmigrated ∧
      main postgresUnmigrated =
        [Step.newPostgres, Step.migrate 1,
         Step.fatal (str "Failed migrations; Could not create DOCUMENTS tables.")
           (str "permission denied for schema public")]) := by
  decide

end Spirit
